import Mathlib

/-!
# Verification of the delta-hedging decision engine

Shallow embedding of the core of the delta-hedging platform:

* `app/models/enums.py`        → `OptionType`, `OrderDirection`
* `app/models/hedge_record.py` → `HedgeRecord`
* `app/models/position.py`     → `Position`, `Position.init`, `Position.needs_hedge`,
  `Position.update_hedge`, `Position.add_hedge_record`, `Position.calculate_intrinsic_value`
* `app/core/option_calculator.py` → `OptionCalculator.calculate_hedge_size`
* `app/core/delta_hedger.py`   → `DeltaHedger`, `DeltaHedger.calculate_position_delta`,
  `DeltaHedger.hedge_position`, `DeltaHedger.validate_settings`
* `config/settings.py`         → `default_hedger`

Modelling conventions:

* Python floats are modelled as `ℚ` (exact rationals); the numeric literals of the
  source (`0.001`, `0.01`, `0.2`, `0.1`, `100.0`, `0.25`, …) become the corresponding
  rationals.
* Python dict lookups `d.get(k, default)` on optional inputs become `Option` fields
  read with `Option.getD`.
* I/O performed by the engine is made explicit: the market-data fetch
  (`ig_client.get_market_data`) becomes an `Option MarketData` argument (`none` models
  a falsy/absent response), the Black-Scholes Greeks computation
  (`OptionCalculator.calculate_greeks`, a transcendental numeric routine) becomes a
  `GreeksFn` argument returning `Except String Greeks` (an `Except.error` models the
  Python exception caught by the caller), and the trade executor
  (`ig_client.create_hedge_position`) becomes a function argument from the order
  placed to `Except String ExecResult`.
* Wall-clock timestamps (`datetime.now()`) are passed in as opaque strings where the
  source stores them; fields that are pure I/O bookkeeping (`created_at`,
  `last_market_data`, `last_update`) are omitted from the state.
* Python exceptions raised to the caller become `Except.error` results; methods that
  mutate `self` return the new state explicitly.
-/

deriving instance DecidableEq for Except

/-- Source `app/models/enums.py`, `OptionType`. -/
inductive OptionType
  | CALL
  | PUT
deriving DecidableEq, Repr

/-- Source `app/models/enums.py`, `OrderDirection`. -/
inductive OrderDirection
  | BUY
  | SELL
deriving DecidableEq, Repr

/-- Source `app/models/hedge_record.py`, class `HedgeRecord`: one executed hedge
(timestamp is the `datetime.now().isoformat()` string, passed in explicitly). -/
structure HedgeRecord where
  timestamp : String
  delta : ℚ
  hedge_size : ℚ
  price : ℚ
  pnl : ℚ
deriving DecidableEq, Repr

/-- Source `app/models/position.py`, class `Position`: the fields set by `Position.__init__`.
`created_at`, `last_market_data` and `last_update` (pure I/O bookkeeping) are omitted. -/
structure Position where
  epic : String
  strike : ℚ
  option_type : OptionType
  direction : String
  contract_size : ℚ
  size : ℚ
  level : ℚ
  premium : ℚ
  underlying_epic : String
  expiry : Option String
  time_to_expiry : ℚ
  hedge_size : ℚ
  hedge_deal_id : Option String
  last_hedge_price : Option ℚ
  last_hedge_time : Option String
  hedge_history : List HedgeRecord
  is_active : Bool
  deal_id : Option String
  pnl_threshold_crossed : Bool
deriving DecidableEq, Repr

/-- The attribute map consumed by `Position.__init__` (`app/models/position.py`).
A `none` field models an absent dictionary key. -/
structure PosData where
  epic : Option String := none
  underlying_epic : Option String := none
  strike : Option ℚ := none
  option_type : Option String := none
  direction : Option String := none
  contract_size : Option ℚ := none
  size : Option ℚ := none
  contracts : Option ℚ := none
  level : Option ℚ := none
  premium : Option ℚ := none
  expiry : Option String := none
  time_to_expiry : Option ℚ := none
  hedge_size : Option ℚ := none
  hedge_deal_id : Option String := none
  last_hedge_price : Option ℚ := none
  last_hedge_time : Option String := none
  is_active : Option Bool := none
  deal_id : Option String := none
  pnl_threshold_crossed : Option Bool := none
deriving Repr

/-- Python truthiness of an optional string: `None` and `""` are falsy. -/
def truthy : Option String → Bool
  | none => false
  | some s => !(s = "")

/-- Python's `str.upper()`, character by character. -/
def py_upper (s : String) : String := String.mk (s.data.map Char.toUpper)

/-- Python's `str.strip()`: drop leading and trailing whitespace. -/
def py_strip (s : String) : String :=
  String.mk (((s.data.dropWhile Char.isWhitespace).reverse.dropWhile Char.isWhitespace).reverse)

/-- Source `app/models/position.py`, `Position.__init__` (lines 13-71).
`data.get("epic") or data.get("underlying_epic")` uses Python truthiness, so an
empty string behaves like an absent key; the `ValueError` raised when the result
is falsy becomes `Except.error`.  Every other field is defaulted exactly as in the
source; in particular `strike = float(data.get("strike", 0))` is *not* validated. -/
def Position.init (data : PosData) : Except String Position :=
  match if truthy data.epic then data.epic else data.underlying_epic with
  | none => Except.error "Epic is required but was not provided in data"
  | some e =>
    if e = "" then
      Except.error "Epic is required but was not provided in data"
    else
      let strike := data.strike.getD 0
      let option_type_raw := py_strip (py_upper (data.option_type.getD "CALL"))
      let option_type :=
        if option_type_raw = "PUT" then OptionType.PUT else OptionType.CALL
      let direction := data.direction.getD "SELL"
      let contract_size := data.contract_size.getD 1
      let size := data.size.getD (data.contracts.getD 0)
      let level := data.level.getD 0
      let premium := data.premium.getD (level * size * contract_size)
      Except.ok
        { epic := e
          strike := strike
          option_type := option_type
          direction := direction
          contract_size := contract_size
          size := size
          level := level
          premium := premium
          underlying_epic := data.underlying_epic.getD e
          expiry := data.expiry
          time_to_expiry := data.time_to_expiry.getD (1/4)
          hedge_size := data.hedge_size.getD 0
          hedge_deal_id := data.hedge_deal_id
          last_hedge_price := data.last_hedge_price
          last_hedge_time := data.last_hedge_time
          hedge_history := []
          is_active := data.is_active.getD true
          deal_id := data.deal_id
          pnl_threshold_crossed := data.pnl_threshold_crossed.getD false }

/-- Source `app/models/position.py`, `Position.calculate_intrinsic_value` (lines 155-163). -/
def Position.calculate_intrinsic_value (p : Position) (current_price : ℚ) : ℚ :=
  if p.option_type = OptionType.CALL then
    max 0 (current_price - p.strike)
  else
    max 0 (p.strike - current_price)

/-- Source `app/models/position.py`, `Position.update_hedge` (lines 165-174): records the
broker-confirmed hedge and sets `pnl_threshold_crossed := true`.  `now` stands for
`datetime.now().isoformat()`. -/
def Position.update_hedge (p : Position) (deal_id : String) (size price : ℚ)
    (now : String) : Position :=
  { p with
    hedge_deal_id := some deal_id
    hedge_size := size
    last_hedge_price := some price
    last_hedge_time := some now
    pnl_threshold_crossed := true }

/-- Source `app/models/position.py`, `Position.add_hedge_record` (lines 176-189): appends a
`HedgeRecord` and updates `last_hedge_time`, `last_hedge_price`, `hedge_size`.
`now` stands for the record's `datetime.now().isoformat()` timestamp. -/
def Position.add_hedge_record (p : Position) (delta hedge_size price pnl : ℚ)
    (now : String) : Position :=
  let record : HedgeRecord :=
    { timestamp := now, delta := delta, hedge_size := hedge_size, price := price, pnl := pnl }
  { p with
    hedge_history := p.hedge_history ++ [record]
    last_hedge_time := some record.timestamp
    last_hedge_price := some price
    hedge_size := hedge_size }

/-- Source `app/models/position.py`, `Position.needs_hedge` (lines 191-207): PnL-threshold
hysteresis around `hedge_threshold = -premium`. -/
def Position.needs_hedge (p : Position) (current_pnl : ℚ) : Bool :=
  if !p.is_active || p.direction ≠ "SELL" then
    false
  else
    let hedge_threshold := -p.premium
    if current_pnl ≤ hedge_threshold ∧ p.pnl_threshold_crossed = false then
      true
    else if current_pnl > hedge_threshold ∧ p.pnl_threshold_crossed = true then
      true
    else
      false

/-- Source `app/core/option_calculator.py`, `OptionCalculator.calculate_hedge_size`
(lines 135-158): `max(min_size, min(max_size, abs(delta * position_size)))` after a
positivity check on `position_size`. -/
def OptionCalculator.calculate_hedge_size (delta position_size min_size max_size : ℚ) :
    Except String ℚ :=
  if position_size ≤ 0 then
    Except.error "Position size must be positive"
  else
    Except.ok (max min_size (min max_size |delta * position_size|))

/-- The Greeks dictionary returned by `OptionCalculator.calculate_greeks`
(`app/core/option_calculator.py`, lines 115-126; the auxiliary `time_value` entry,
unused by the hedging paths, is omitted). -/
structure Greeks where
  delta : ℚ
  gamma : ℚ
  theta : ℚ
  vega : ℚ
  rho : ℚ
deriving DecidableEq, Repr

/-- Abstraction of `OptionCalculator.calculate_greeks S K T sigma option_type`:
a transcendental numeric routine, modelled as an oracle.  `Except.error` models a
raised exception (e.g. `validate_inputs` rejecting `K ≤ 0`), which the caller
catches and converts into an error result. -/
abbrev GreeksFn := ℚ → ℚ → ℚ → ℚ → OptionType → Except String Greeks

/-- The market-data dictionary supplied by `ig_client.get_market_data`; keys are
read with `.get("price", 0)` and `.get("volatility", 0.2)`, hence the `Option`s. -/
structure MarketData where
  price : Option ℚ := none
  volatility : Option ℚ := none
deriving DecidableEq, Repr

/-- The dictionary built by `DeltaHedger.calculate_position_delta` on success
(`app/core/delta_hedger.py`, lines 86-98 and 124-132). -/
structure DeltaInfo where
  current_price : ℚ
  delta : ℚ
  position_delta : ℚ
  greeks : Greeks
  needs_hedge : Bool
deriving DecidableEq, Repr

/-- Source `app/core/delta_hedger.py`, `DeltaHedger.__init__` (lines 27-30): the four
mutable settings loaded from `config.settings.HEDGE_SETTINGS`. -/
structure DeltaHedger where
  min_hedge_size : ℚ
  max_hedge_size : ℚ
  hedge_interval : ℚ
  delta_threshold : ℚ
deriving DecidableEq, Repr

/-- Source `config/settings.py`, `HEDGE_SETTINGS`: the values a fresh `DeltaHedger` loads
(`min_hedge_size = 0.01`, `max_hedge_size = 100.0`, `hedge_interval = 60`,
`delta_threshold = 0.05`). -/
def default_hedger : DeltaHedger :=
  { min_hedge_size := 1/100
    max_hedge_size := 100
    hedge_interval := 60
    delta_threshold := 1/20 }

/-- Source `app/core/delta_hedger.py`, `DeltaHedger.calculate_position_delta` (lines 60-136).
`market_data = none` models a falsy `get_market_data` response.  The near-expiry
branch (`time_to_expiry <= 0.001`) computes `delta` from the sign of the intrinsic
value (itself floored at 0) and always reports `needs_hedge = False`; the normal
branch calls the Greeks oracle and reports
`needs_hedge = abs(greeks["delta"]) > self.delta_threshold`. -/
def DeltaHedger.calculate_position_delta (self : DeltaHedger) (gf : GreeksFn)
    (market_data : Option MarketData) (position : Position) : Except String DeltaInfo :=
  if position.time_to_expiry ≤ 1/1000 then
    match market_data with
    | none => Except.error "Failed to fetch market data"
    | some md =>
      let current_price := md.price.getD 0
      let intrinsic_value :=
        if position.option_type = OptionType.CALL then
          max (current_price - position.strike) 0
        else
          max (position.strike - current_price) 0
      let delta : ℚ :=
        if intrinsic_value = 0 then 0 else if intrinsic_value > 0 then 1 else -1
      Except.ok
        { current_price := current_price
          delta := delta
          position_delta := delta * position.size * position.contract_size
          greeks := { delta := delta, gamma := 0, theta := 0, vega := 0, rho := 0 }
          needs_hedge := false }
  else
    match market_data with
    | none => Except.error "Failed to fetch market data"
    | some md =>
      let current_price := md.price.getD 0
      if current_price ≤ 0 then
        Except.error "Invalid market price"
      else
        let volatility := max (md.volatility.getD (1/5)) (1/10)
        let time_to_expiry := max position.time_to_expiry (1/1000)
        match gf current_price position.strike time_to_expiry volatility position.option_type with
        | Except.error e => Except.error e
        | Except.ok greeks =>
          Except.ok
            { current_price := current_price
              delta := greeks.delta
              position_delta := greeks.delta * position.size * position.contract_size
              greeks := greeks
              needs_hedge := decide (|greeks.delta| > self.delta_threshold) }

/-- The order passed to `ig_client.create_hedge_position`
(`app/core/delta_hedger.py`, lines 189-191). -/
structure HedgeOrder where
  epic : String
  direction : OrderDirection
  size : ℚ
deriving DecidableEq, Repr

/-- The executor's response dictionary; `dealReference` read with `.get`. -/
structure ExecResult where
  dealReference : Option String := none
deriving DecidableEq, Repr

/-- The dictionary returned by `DeltaHedger.hedge_position`: either
`{"error": ...}` or `{"status": "hedged", "hedge_size": ..., "hedge_reference": ...,
"delta": delta_info}`. -/
inductive HedgeOutcome
  | error (msg : String)
  | hedged (hedge_size : ℚ) (hedge_reference : Option String) (delta_info : DeltaInfo)
deriving DecidableEq, Repr

/-- Source `app/core/delta_hedger.py`, `DeltaHedger.hedge_position` (lines 138-202).
The `position_id` lookup is factored out: the resolved `position` is an argument
(the not-found case returns early without touching any position).  The unused
`hedge_size`/`force_hedge` parameters of the source are dropped: the local
`hedge_size` is unconditionally overwritten at lines 171-181.  `executor` models
`ig_client.create_hedge_position`; an `Except.error` models an exception, which
the source's outer `try` turns into `{"error": f"Hedging failed: {e}"}`.  The
returned `Position` is the position state after the call — the source never
mutates it. -/
def DeltaHedger.hedge_position (self : DeltaHedger) (gf : GreeksFn)
    (market_data : Option MarketData) (executor : HedgeOrder → Except String ExecResult)
    (position : Position) : HedgeOutcome × Position :=
  match self.calculate_position_delta gf market_data position with
  | Except.error e => (HedgeOutcome.error e, position)
  | Except.ok delta_info =>
    let delta := delta_info.delta
    -- Near-expiry or zero delta handling (lines 171-177)
    let hedge_size_raw : ℚ :=
      if delta = 0 ∨ position.time_to_expiry ≤ 1/1000 then
        max (1/100) (position.size * (1/10))
      else
        |delta| * position.size * position.contract_size
    -- Hardcoded constraints (lines 180-181): max(0.01, _) then min(_, 100.0)
    let hedge_size := min (max (1/100) hedge_size_raw) 100
    -- Direction (line 186): BUY if hedge_size > 0 else SELL
    let direction :=
      if hedge_size > 0 then OrderDirection.BUY else OrderDirection.SELL
    let order : HedgeOrder :=
      { epic := position.underlying_epic, direction := direction, size := |hedge_size| }
    match executor order with
    | Except.error e => (HedgeOutcome.error ("Hedging failed: " ++ e), position)
    | Except.ok res => (HedgeOutcome.hedged hedge_size res.dealReference delta_info, position)

/-- A value arriving in the settings dictionary of `validate_settings`: either a
number (anything Python's `float(...)` accepts) or a non-numeric value on which
`float(...)` raises. -/
inductive NumValue
  | num (q : ℚ)
  | nonNumeric
deriving DecidableEq, Repr

/-- The settings dictionary passed to `DeltaHedger.validate_settings`; a `none`
field models an absent key (read via `settings.get(key, 0)`). -/
structure SettingsInput where
  min_hedge_size : Option NumValue := none
  max_hedge_size : Option NumValue := none
  hedge_interval : Option NumValue := none
  delta_threshold : Option NumValue := none
deriving DecidableEq, Repr

/-- Source `app/core/delta_hedger.py`, `DeltaHedger.validate_settings` (lines 331-368).
Returns the (possibly updated) hedger together with `Except.ok ()` for the
`{"status": "success"}` result or `Except.error` for an `{"error": ...}` result;
the hedger is updated only after all four checks pass. -/
def DeltaHedger.validate_settings (self : DeltaHedger) (settings : SettingsInput) :
    DeltaHedger × Except String Unit :=
  match settings.min_hedge_size.getD (NumValue.num 0),
        settings.max_hedge_size.getD (NumValue.num 0),
        settings.hedge_interval.getD (NumValue.num 0),
        settings.delta_threshold.getD (NumValue.num 0) with
  | NumValue.num mn, NumValue.num mx, NumValue.num hi, NumValue.num dt =>
    if mn ≤ 0 then
      (self, Except.error "min_hedge_size must be positive")
    else if mx ≤ mn then
      (self, Except.error "max_hedge_size must be greater than min_hedge_size")
    else if hi ≤ 0 then
      (self, Except.error "hedge_interval must be positive")
    else if dt ≤ 0 then
      (self, Except.error "delta_threshold must be positive")
    else
      ({ min_hedge_size := mn, max_hedge_size := mx,
         hedge_interval := hi, delta_threshold := dt }, Except.ok ())
  | _, _, _, _ => (self, Except.error "Invalid numeric values in settings")

/-- The experiment protocol of the hysteresis test vector: evaluate
`Position.needs_hedge` on successive PnL values; after each `true` returned for a
currently-unflagged position (an "initiate" signal) the position is marked hedged
the way `Position.update_hedge` does (`pnl_threshold_crossed := true`) before the
next call. -/
def needs_hedge_run (p : Position) : List ℚ → List Bool
  | [] => []
  | pnl :: rest =>
    let r := p.needs_hedge pnl
    let p' :=
      if r && !p.pnl_threshold_crossed then p.update_hedge "hedge-deal" 1 1 "now" else p
    r :: needs_hedge_run p' rest

/-! ## Claim C4 -/

/-- Claim C4: for every `Position`, `needs_hedge current_pnl` is true exactly when
either (a) `current_pnl ≤ −premium` with `pnl_threshold_crossed = false` (initiate),
or (b) `current_pnl > −premium` with `pnl_threshold_crossed = true` (signal hedge
removal); and it is false whenever the position is inactive or not SELL-direction,
regardless of PnL. -/
theorem claim_C4_theorem (p : Position) (pnl : ℚ) :
    p.needs_hedge pnl = true ↔
      (p.is_active = true ∧ p.direction = "SELL" ∧
        ((pnl ≤ -p.premium ∧ p.pnl_threshold_crossed = false) ∨
         (-p.premium < pnl ∧ p.pnl_threshold_crossed = true))) := by
  cases hA : p.is_active <;> cases hC : p.pnl_threshold_crossed <;>
    by_cases hD : p.direction = "SELL" <;> by_cases hle : pnl ≤ -p.premium <;>
    simp [Position.needs_hedge, hA, hC, hD, hle]

/-! ## Claim C5 -/

/-- An active SELL position with premium 100 and no hedge flagged, as in the
hysteresis test vector. -/
def c5_pos : Position :=
  { epic := "OPT.C5"
    strike := 100
    option_type := OptionType.CALL
    direction := "SELL"
    contract_size := 1
    size := 1
    level := 0
    premium := 100
    underlying_epic := "OPT.C5"
    expiry := none
    time_to_expiry := 1/4
    hedge_size := 0
    hedge_deal_id := none
    last_hedge_price := none
    last_hedge_time := none
    hedge_history := []
    is_active := true
    deal_id := none
    pnl_threshold_crossed := false }

/-- Claim C5 counterexample: under the claim's protocol the PnL sequence
[−50, −120, −80, 130] does *not* produce [false, true, false, true]: at −80 the
PnL is already above the −100 threshold while the hedge flag is set, so
`needs_hedge` signals removal (true), not false. -/
theorem claim_C5_counterexample :
    needs_hedge_run c5_pos [-50, -120, -80, 130] ≠ [false, true, false, true] := by
  decide

/-- Claim C5 (amended): the sequence produced is [false, true, true, true] — the
third entry is true because −80 > −100 with the hedge flagged is a removal signal —
and at PnL exactly −100 the position initiates once and then stays quiet (no
open/close oscillation). -/
theorem claim_C5_theorem :
    needs_hedge_run c5_pos [-50, -120, -80, 130] = [false, true, true, true] ∧
    needs_hedge_run c5_pos [-100, -100, -100, -100] = [true, false, false, false] := by
  constructor <;> decide

/-! ## Claim C9 -/

/-- Claim C9 counterexample: with `min_size = −5` and `max_size = −1` (values the
function itself never validates), `calculate_hedge_size 0 1 (−5) (−1)` returns −1,
a negative hedge size — refuting "always non-negative" quantified over all
`min_size`, `max_size`. -/
theorem claim_C9_counterexample :
    OptionCalculator.calculate_hedge_size 0 1 (-5) (-1) = Except.ok (-1) ∧
    ((-1 : ℚ) < 0) := by
  constructor
  · norm_num [OptionCalculator.calculate_hedge_size]
  · norm_num

/-- Claim C9 (amended): for `position_size > 0` the function returns
`clamp(|delta * position_size|, min_size, max_size)`
(`max min_size (min max_size |delta * position_size|)`); the result is
non-negative whenever `min_size ≥ 0` (as guaranteed by validated engine settings),
and `calculate_hedge_size 0.6 10 0.01 5 = 5`. -/
theorem claim_C9_theorem (delta position_size min_size max_size : ℚ)
    (h : 0 < position_size) :
    OptionCalculator.calculate_hedge_size delta position_size min_size max_size =
      Except.ok (max min_size (min max_size |delta * position_size|)) ∧
    (0 ≤ min_size → 0 ≤ max min_size (min max_size |delta * position_size|)) ∧
    OptionCalculator.calculate_hedge_size (6/10) 10 (1/100) 5 = Except.ok 5 := by
  refine ⟨?_, ?_, by norm_num [OptionCalculator.calculate_hedge_size]⟩
  · unfold OptionCalculator.calculate_hedge_size
    rw [if_neg (not_le.mpr h)]
  · intro hmn
    exact le_trans hmn (le_max_left _ _)

/-- Claim C9 witness: the amended theorem applied at
`delta = 0.6, position_size = 10, min_size = 0.01, max_size = 5`. -/
theorem claim_C9_witness :
    (0 : ℚ) < 10 ∧
    OptionCalculator.calculate_hedge_size (6/10) 10 (1/100) 5 =
      Except.ok (max (1/100) (min 5 |(6/10 : ℚ) * 10|)) :=
  ⟨by norm_num, (claim_C9_theorem (6/10) 10 (1/100) 5 (by norm_num)).1⟩

/-! ## Claim C1 -/

/-- The near-expiry delta computation of `calculate_position_delta` (lines 76-84):
since the intrinsic value is floored at 0, the `-1` arm is unreachable and the
delta is 1 whenever the intrinsic value is non-zero. -/
lemma near_expiry_delta_eq (x : ℚ) :
    (if max x 0 = 0 then (0:ℚ) else if max x 0 > 0 then 1 else -1) =
      (if max 0 x = 0 then 0 else 1) := by
  rw [max_comm]
  by_cases hz : max 0 x = 0
  · simp [hz]
  · have h0 : (0:ℚ) < max 0 x := lt_of_le_of_ne (le_max_left _ _) (Ne.symm hz)
    simp [hz, h0]

/-- A SELL PUT at the near-expiry boundary (`T = 0.0005`), strike 100. -/
def c1_put_pos : Position :=
  { epic := "OPT.P1"
    strike := 100
    option_type := OptionType.PUT
    direction := "SELL"
    contract_size := 1
    size := 1
    level := 0
    premium := 100
    underlying_epic := "UND.P1"
    expiry := none
    time_to_expiry := 1/2000
    hedge_size := 0
    hedge_deal_id := none
    last_hedge_price := none
    last_hedge_time := none
    hedge_history := []
    is_active := true
    deal_id := none
    pnl_threshold_crossed := false }

/-- A Greeks oracle that is never consulted on the near-expiry path. -/
def c1_gf : GreeksFn := fun _ _ _ _ _ => Except.error "not used"

/-- Market data with current price 90 (below the strike: the PUT is in the money). -/
def c1_md : MarketData := { price := some 90, volatility := none }

/-- The delta dictionary the code actually produces for the in-the-money PUT. -/
def c1_info : DeltaInfo :=
  { current_price := 90
    delta := 1
    position_delta := 1
    greeks := { delta := 1, gamma := 0, theta := 0, vega := 0, rho := 0 }
    needs_hedge := false }

/-- Claim C1 counterexample: an in-the-money PUT (strike 100, current price 90) at
`T = 0.0005` gets delta `+1` from `calculate_position_delta`, not the `−1` the
claim states: the intrinsic value `max(strike − price, 0)` is never negative, so
the `−1` arm of the delta expression is dead code. -/
theorem claim_C1_counterexample :
    default_hedger.calculate_position_delta c1_gf (some c1_md) c1_put_pos =
      Except.ok c1_info ∧ c1_info.delta = 1 ∧ ¬ c1_info.delta = -1 := by
  refine ⟨?_, by norm_num [c1_info], by norm_num [c1_info]⟩
  norm_num [DeltaHedger.calculate_position_delta, default_hedger, c1_gf, c1_md, c1_put_pos,
    c1_info]
  decide

/-- Claim C1 (amended): for every position with `time_to_expiry ≤ 0.001`,
`calculate_position_delta` skips Black-Scholes and derives delta from intrinsic
value at the current market price: delta = 0 at-the-money-or-out and delta = +1
in the money — for CALLs *and* PUTs (the −1 arm is unreachable); in particular
`T = 0.0005` with `current_price > strike` for a CALL yields delta = 1. -/
theorem claim_C1_theorem (self : DeltaHedger) (gf : GreeksFn) (md : MarketData)
    (p : Position) (h : p.time_to_expiry ≤ 1/1000) :
    ∃ info, self.calculate_position_delta gf (some md) p = Except.ok info ∧
      info.delta =
        (if p.calculate_intrinsic_value (md.price.getD 0) = 0 then 0 else 1) ∧
      info.needs_hedge = false := by
  unfold DeltaHedger.calculate_position_delta
  rw [if_pos h]
  refine ⟨_, rfl, ?_, rfl⟩
  unfold Position.calculate_intrinsic_value
  by_cases ht : p.option_type = OptionType.CALL
  · simp only [ht, if_true]
    exact near_expiry_delta_eq _
  · simp only [ht, if_false]
    exact near_expiry_delta_eq _

/-- A SELL CALL at the near-expiry boundary (`T = 0.0005`), strike 100. -/
def c1_call_pos : Position :=
  { c1_put_pos with epic := "OPT.C1", option_type := OptionType.CALL }

/-- Market data with current price 110 (above the strike: the CALL is in the money). -/
def c1_call_md : MarketData := { price := some 110, volatility := none }

/-- Claim C1 witness: the amended theorem applied to the claim's own example —
a CALL with `T = 0.0005` and `current_price = 110 > strike = 100`. -/
theorem claim_C1_witness :
    c1_call_pos.time_to_expiry ≤ 1/1000 ∧
    ∃ info, default_hedger.calculate_position_delta c1_gf (some c1_call_md) c1_call_pos =
        Except.ok info ∧
      info.delta =
        (if c1_call_pos.calculate_intrinsic_value (c1_call_md.price.getD 0) = 0 then 0 else 1) ∧
      info.needs_hedge = false :=
  ⟨by norm_num [c1_call_pos, c1_put_pos],
   claim_C1_theorem default_hedger c1_gf c1_call_md c1_call_pos
     (by norm_num [c1_call_pos, c1_put_pos])⟩

/-! ## Claim C3 -/

/-- Characterization of the normal (non-near-expiry) branch of
`calculate_position_delta`: when the price is positive and the Greeks oracle
succeeds, the result is built from the oracle's delta, and `needs_hedge` compares
the *per-unit* delta against the threshold. -/
lemma calc_delta_normal (self : DeltaHedger) (gf : GreeksFn) (md : MarketData)
    (p : Position) (htte : ¬ p.time_to_expiry ≤ 1/1000) (hp : ¬ md.price.getD 0 ≤ 0)
    (greeks : Greeks)
    (hg : gf (md.price.getD 0) p.strike (max p.time_to_expiry (1/1000))
            (max (md.volatility.getD (1/5)) (1/10)) p.option_type = Except.ok greeks) :
    self.calculate_position_delta gf (some md) p =
      Except.ok
        { current_price := md.price.getD 0
          delta := greeks.delta
          position_delta := greeks.delta * p.size * p.contract_size
          greeks := greeks
          needs_hedge := decide (|greeks.delta| > self.delta_threshold) } := by
  simp only [DeltaHedger.calculate_position_delta, htte, hp, hg, if_false, if_neg]

/-- Claim C3 (amended): in the normal (non-near-expiry) branch,
`calculate_position_delta` reports `needs_hedge` exactly when the *per-unit*
option delta exceeds the tolerance — `|greeks.delta| > delta_threshold` — not
the position-level delta; `position_delta` is still reported as
`greeks.delta * size * contract_size`. -/
theorem claim_C3_theorem (self : DeltaHedger) (gf : GreeksFn)
    (market_data : Option MarketData) (p : Position) (info : DeltaInfo)
    (htte : ¬ p.time_to_expiry ≤ 1/1000)
    (h : self.calculate_position_delta gf market_data p = Except.ok info) :
    (info.needs_hedge = true ↔ |info.delta| > self.delta_threshold) ∧
    info.position_delta = info.delta * p.size * p.contract_size := by
  cases market_data with
  | none =>
    simp only [DeltaHedger.calculate_position_delta, htte, if_false, if_neg] at h
    exact Except.noConfusion h
  | some md =>
    by_cases hp : md.price.getD 0 ≤ 0
    · simp only [DeltaHedger.calculate_position_delta, htte, hp, if_true, if_pos,
        if_false, if_neg] at h
      exact Except.noConfusion h
    · cases hg : gf (md.price.getD 0) p.strike (max p.time_to_expiry (1/1000))
          (max (md.volatility.getD (1/5)) (1/10)) p.option_type with
      | error e =>
        simp only [DeltaHedger.calculate_position_delta, htte, hp, hg, if_false,
          if_neg] at h
        exact Except.noConfusion h
      | ok greeks =>
        rw [calc_delta_normal self gf md p htte hp greeks hg] at h
        injection h with h'
        subst h'
        exact ⟨by simp, rfl⟩

/-- A Greeks oracle returning a per-unit delta of 0.04, just below the default
0.05 threshold. -/
def c3_gf : GreeksFn :=
  fun _ _ _ _ _ => Except.ok { delta := 1/25, gamma := 0, theta := 0, vega := 0, rho := 0 }

/-- Market data with price 100 for the normal-branch example. -/
def c3_md : MarketData := { price := some 100, volatility := none }

/-- A SELL CALL of size 10 (contract size 1), well away from expiry. -/
def c3_pos : Position :=
  { epic := "OPT.C3"
    strike := 100
    option_type := OptionType.CALL
    direction := "SELL"
    contract_size := 1
    size := 10
    level := 0
    premium := 100
    underlying_epic := "UND.C3"
    expiry := none
    time_to_expiry := 1/4
    hedge_size := 0
    hedge_deal_id := none
    last_hedge_price := none
    last_hedge_time := none
    hedge_history := []
    is_active := true
    deal_id := none
    pnl_threshold_crossed := false }

/-- The delta dictionary produced for `c3_pos`: per-unit delta 0.04, position
delta 0.4, and `needs_hedge = false`. -/
def c3_info : DeltaInfo :=
  { current_price := 100
    delta := 1/25
    position_delta := 2/5
    greeks := { delta := 1/25, gamma := 0, theta := 0, vega := 0, rho := 0 }
    needs_hedge := false }

/-- Claim C3 counterexample: with per-unit delta 0.04, size 10, contract size 1
and threshold 0.05, the position-level delta is 0.4 > 0.05, yet the code reports
`needs_hedge = false` because it compares the per-unit delta 0.04 against the
threshold. -/
theorem claim_C3_counterexample :
    default_hedger.calculate_position_delta c3_gf (some c3_md) c3_pos =
      Except.ok c3_info ∧
    c3_info.needs_hedge = false ∧
    |c3_info.position_delta| > default_hedger.delta_threshold := by
  refine ⟨?_, by norm_num [c3_info],
    by norm_num [c3_info, default_hedger, abs_of_pos]⟩
  norm_num [DeltaHedger.calculate_position_delta, default_hedger, c3_gf, c3_md, c3_pos,
    c3_info, abs_of_pos]

/-- Claim C3 witness: the amended theorem applied to `c3_pos` under
`default_hedger`. -/
theorem claim_C3_witness :
    (c3_info.needs_hedge = true ↔ |c3_info.delta| > default_hedger.delta_threshold) ∧
    c3_info.position_delta = c3_info.delta * c3_pos.size * c3_pos.contract_size :=
  claim_C3_theorem default_hedger c3_gf (some c3_md) c3_pos c3_info
    (by norm_num [c3_pos])
    (by norm_num [DeltaHedger.calculate_position_delta, default_hedger, c3_gf, c3_md,
      c3_pos, c3_info, abs_of_pos])

/-! ## Claim C2 -/

/-- A SELL CALL of size 2 with an empty hedge history, for the hedge-execution
example. -/
def c2_pos : Position :=
  { epic := "OPT.C2"
    strike := 100
    option_type := OptionType.CALL
    direction := "SELL"
    contract_size := 1
    size := 2
    level := 0
    premium := 100
    underlying_epic := "UND.C2"
    expiry := none
    time_to_expiry := 1/4
    hedge_size := 0
    hedge_deal_id := none
    last_hedge_price := none
    last_hedge_time := none
    hedge_history := []
    is_active := true
    deal_id := none
    pnl_threshold_crossed := false }

/-- A Greeks oracle returning a per-unit delta of 0.5. -/
def c2_gf : GreeksFn :=
  fun _ _ _ _ _ => Except.ok { delta := 1/2, gamma := 0, theta := 0, vega := 0, rho := 0 }

/-- Market data with price 110. -/
def c2_md : MarketData := { price := some 110, volatility := none }

/-- A trade executor that succeeds with deal reference `ref-1`. -/
def c2_exec : HedgeOrder → Except String ExecResult :=
  fun _ => Except.ok { dealReference := some "ref-1" }

/-- The delta dictionary produced for `c2_pos` (position delta 1, above the
default threshold). -/
def c2_info : DeltaInfo :=
  { current_price := 110
    delta := 1/2
    position_delta := 1
    greeks := { delta := 1/2, gamma := 0, theta := 0, vega := 0, rho := 0 }
    needs_hedge := true }

/-- Claim C2 counterexample: a hedge attempt whose trade-executor call *succeeds*
returns `status = hedged` yet leaves the Position completely untouched — the
returned position still has an empty `hedge_history`, no `last_hedge_price` and
`hedge_size = 0`; `hedge_position` never calls
`add_hedge_record`/`update_hedge`. -/
theorem claim_C2_counterexample :
    default_hedger.hedge_position c2_gf (some c2_md) c2_exec c2_pos =
      (HedgeOutcome.hedged 1 (some "ref-1") c2_info, c2_pos) ∧
    c2_pos.hedge_history = [] := by
  constructor
  · have hcalc : default_hedger.calculate_position_delta c2_gf (some c2_md) c2_pos =
        Except.ok c2_info := by
      norm_num [DeltaHedger.calculate_position_delta, default_hedger, c2_gf, c2_md,
        c2_pos, c2_info, abs_of_pos]
    unfold DeltaHedger.hedge_position
    rw [hcalc]
    norm_num [c2_info, c2_pos, c2_exec, abs_of_pos]
  · rfl

/-- Claim C2 (amended): `hedge_position` never mutates the Position's hedge state
at all — for every executor (succeeding or failing) the position comes back
unchanged, so the success path does *not* record the hedge; the failure path does
return the structured error `"Hedging failed: ..."` without mutation, as claimed. -/
theorem claim_C2_theorem (self : DeltaHedger) (gf : GreeksFn)
    (market_data : Option MarketData) (p : Position) :
    (∀ executor, (self.hedge_position gf market_data executor p).2 = p) ∧
    (∀ info e, self.calculate_position_delta gf market_data p = Except.ok info →
      (self.hedge_position gf market_data (fun _ => Except.error e) p).1 =
        HedgeOutcome.error ("Hedging failed: " ++ e)) := by
  constructor
  · intro executor
    unfold DeltaHedger.hedge_position
    split
    · rfl
    · dsimp only
      split <;> rfl
  · intro info e h
    unfold DeltaHedger.hedge_position
    rw [h]

/-- Claim C2 witness: the amended theorem applied to `c2_pos` with a failing
executor. -/
theorem claim_C2_witness :
    (default_hedger.hedge_position c2_gf (some c2_md)
        (fun _ => Except.error "executor down") c2_pos).2 = c2_pos ∧
    (default_hedger.hedge_position c2_gf (some c2_md)
        (fun _ => Except.error "executor down") c2_pos).1 =
      HedgeOutcome.error ("Hedging failed: " ++ "executor down") :=
  ⟨(claim_C2_theorem default_hedger c2_gf (some c2_md) c2_pos).1 _,
   (claim_C2_theorem default_hedger c2_gf (some c2_md) c2_pos).2 c2_info "executor down"
     (by norm_num [DeltaHedger.calculate_position_delta, default_hedger, c2_gf, c2_md,
       c2_pos, c2_info, abs_of_pos])⟩

/-! ## Claim C10 -/

/-- Claim C10: the hedge size is floored at 0.01 before the direction is chosen,
so (1) any executed hedge has size at least 0.01, and (2) the engine only ever
consults the trade executor on BUY orders — two executors that agree on BUY
orders are indistinguishable to `hedge_position`, i.e. the SELL arm of the
direction selection is unreachable. -/
theorem claim_C10_theorem (self : DeltaHedger) (gf : GreeksFn)
    (market_data : Option MarketData) (p : Position) :
    (∀ (executor : HedgeOrder → Except String ExecResult) (s : ℚ) (ref : Option String)
        (dinfo : DeltaInfo) (q : Position),
      self.hedge_position gf market_data executor p =
        (HedgeOutcome.hedged s ref dinfo, q) →
      1/100 ≤ s) ∧
    (∀ f g : HedgeOrder → Except String ExecResult,
      (∀ o, o.direction = OrderDirection.BUY → f o = g o) →
      self.hedge_position gf market_data f p = self.hedge_position gf market_data g p) := by
  constructor
  · intro executor s ref dinfo q h
    unfold DeltaHedger.hedge_position at h
    split at h
    · simp at h
    · dsimp only at h
      split at h
      · simp at h
      · rw [Prod.mk.injEq] at h
        obtain ⟨h1, -⟩ := h
        injection h1 with hs1 _ _
        rw [← hs1]
        exact le_min (le_max_left _ _) (by norm_num)
  · intro f g hfg
    unfold DeltaHedger.hedge_position
    split
    · rfl
    · dsimp only
      have hdir : ∀ r : ℚ,
          (if (min (max (1/100) r) 100 : ℚ) > 0 then OrderDirection.BUY
           else OrderDirection.SELL) = OrderDirection.BUY := by
        intro r
        exact if_pos (lt_min (lt_of_lt_of_le (by norm_num) (le_max_left _ _)) (by norm_num))
      rw [hdir]
      rw [hfg _ rfl]

/-- An executor that rejects SELL orders outright. -/
def c10_f : HedgeOrder → Except String ExecResult :=
  fun o =>
    if o.direction = OrderDirection.SELL then Except.error "sell rejected"
    else Except.ok { dealReference := some "ref-10" }

/-- An executor that accepts everything. -/
def c10_g : HedgeOrder → Except String ExecResult :=
  fun _ => Except.ok { dealReference := some "ref-10" }

/-- Claim C10 witness: `hedge_position` cannot tell a SELL-rejecting executor from
an all-accepting one. -/
theorem claim_C10_witness :
    default_hedger.hedge_position c2_gf (some c2_md) c10_f c2_pos =
      default_hedger.hedge_position c2_gf (some c2_md) c10_g c2_pos :=
  (claim_C10_theorem default_hedger c2_gf (some c2_md) c2_pos).2 c10_f c10_g
    (fun o ho => by simp [c10_f, c10_g, ho])

/-! ## Claim C6 -/

/-- Lemma: `calculate_position_delta` gives the same answer for two hedgers with the same
`delta_threshold` — it reads no other setting. -/
lemma calculate_position_delta_threshold_congr (self other : DeltaHedger)
    (h : self.delta_threshold = other.delta_threshold) (gf : GreeksFn)
    (md : Option MarketData) (p : Position) :
    self.calculate_position_delta gf md p = other.calculate_position_delta gf md p := by
  unfold DeltaHedger.calculate_position_delta
  rw [h]

/-- A settings update accepted by `validate_settings`: `min_hedge_size = 0.5`,
`max_hedge_size = 50`, `hedge_interval = 60`, `delta_threshold = 0.05`. -/
def c6_settings : SettingsInput :=
  { min_hedge_size := some (NumValue.num (1/2))
    max_hedge_size := some (NumValue.num 50)
    hedge_interval := some (NumValue.num 60)
    delta_threshold := some (NumValue.num (1/20)) }

/-- The hedger state after the successful settings update. -/
def c6_hedger : DeltaHedger := (default_hedger.validate_settings c6_settings).1

/-- A Greeks oracle returning a tiny per-unit delta of 0.001. -/
def c6_gf : GreeksFn :=
  fun _ _ _ _ _ =>
    Except.ok { delta := 1/1000, gamma := 0, theta := 0, vega := 0, rho := 0 }

/-- Market data with price 100. -/
def c6_md : MarketData := { price := some 100, volatility := none }

/-- A SELL CALL of size 1 away from expiry, whose delta-based hedge size 0.001
falls below every relevant floor. -/
def c6_pos : Position :=
  { epic := "OPT.C6"
    strike := 100
    option_type := OptionType.CALL
    direction := "SELL"
    contract_size := 1
    size := 1
    level := 0
    premium := 100
    underlying_epic := "UND.C6"
    expiry := none
    time_to_expiry := 1/4
    hedge_size := 0
    hedge_deal_id := none
    last_hedge_price := none
    last_hedge_time := none
    hedge_history := []
    is_active := true
    deal_id := none
    pnl_threshold_crossed := false }

/-- A trade executor that succeeds with deal reference `ref-6`. -/
def c6_exec : HedgeOrder → Except String ExecResult :=
  fun _ => Except.ok { dealReference := some "ref-6" }

/-- The delta dictionary produced for `c6_pos`. -/
def c6_info : DeltaInfo :=
  { current_price := 100
    delta := 1/1000
    position_delta := 1/1000
    greeks := { delta := 1/1000, gamma := 0, theta := 0, vega := 0, rho := 0 }
    needs_hedge := false }

/-- Concrete evaluation of the hedge under the updated settings: the executed
hedge size is 0.01 — the hardcoded floor — not the configured 0.5. -/
lemma c6_eval :
    c6_hedger.hedge_position c6_gf (some c6_md) c6_exec c6_pos =
      (HedgeOutcome.hedged (1/100) (some "ref-6") c6_info, c6_pos) := by
  have hcalc : c6_hedger.calculate_position_delta c6_gf (some c6_md) c6_pos =
      Except.ok c6_info := by
    norm_num [DeltaHedger.calculate_position_delta, c6_hedger, c6_settings,
      default_hedger, DeltaHedger.validate_settings, c6_gf, c6_md, c6_pos, c6_info,
      abs_of_pos]
  unfold DeltaHedger.hedge_position
  rw [hcalc]
  norm_num [c6_info, c6_pos, c6_exec, abs_of_pos]

/-- Claim C6 counterexample: after a successful settings update installing
`min_hedge_size = 0.5` and `max_hedge_size = 50`, a hedge with `|delta| * size *
contract_size = 0.001` executes with size 0.01 (the hardcoded floor of the code),
not `clamp(0.001, 0.5, 50) = 0.5` as the claim's configured-settings clamp
requires. -/
theorem claim_C6_counterexample :
    c6_hedger.min_hedge_size = 1/2 ∧ c6_hedger.max_hedge_size = 50 ∧
    c6_hedger.hedge_position c6_gf (some c6_md) c6_exec c6_pos =
      (HedgeOutcome.hedged (1/100) (some "ref-6") c6_info, c6_pos) ∧
    ¬ ((1:ℚ)/100 =
        max c6_hedger.min_hedge_size
          (min c6_hedger.max_hedge_size
            (|c6_info.delta| * c6_pos.size * c6_pos.contract_size))) := by
  refine ⟨?_, ?_, c6_eval, ?_⟩
  · norm_num [c6_hedger, c6_settings, default_hedger, DeltaHedger.validate_settings]
  · norm_num [c6_hedger, c6_settings, default_hedger, DeltaHedger.validate_settings]
  · norm_num [c6_hedger, c6_settings, default_hedger, DeltaHedger.validate_settings,
      c6_info, c6_pos, abs_of_pos]

/-- Claim C6 (amended): every executed hedge has size
`min (max 0.01 base) 100` with `base = max 0.01 (size * 0.1)` when delta is zero
or the position is at the near-expiry boundary, and
`base = |delta| * size * contract_size` otherwise — the bounds 0.01 and 100 are
hardcoded, and the configured `min_hedge_size`/`max_hedge_size` never influence
`hedge_position` at all (only `delta_threshold` does). -/
theorem claim_C6_theorem (gf : GreeksFn) (market_data : Option MarketData)
    (executor : HedgeOrder → Except String ExecResult) (p : Position) :
    (∀ (self : DeltaHedger) (info : DeltaInfo) (s : ℚ) (ref : Option String)
        (dinfo : DeltaInfo) (q : Position),
      self.calculate_position_delta gf market_data p = Except.ok info →
      self.hedge_position gf market_data executor p =
        (HedgeOutcome.hedged s ref dinfo, q) →
      s = min (max (1/100)
            (if info.delta = 0 ∨ p.time_to_expiry ≤ 1/1000 then
              max (1/100) (p.size * (1/10))
            else |info.delta| * p.size * p.contract_size)) 100) ∧
    (∀ self other : DeltaHedger, self.delta_threshold = other.delta_threshold →
      self.hedge_position gf market_data executor p =
        other.hedge_position gf market_data executor p) := by
  constructor
  · intro self info s ref dinfo q hcalc h
    unfold DeltaHedger.hedge_position at h
    rw [hcalc] at h
    dsimp only at h
    split at h
    · simp at h
    · rw [Prod.mk.injEq] at h
      obtain ⟨h1, -⟩ := h
      injection h1 with hs1 _ _
      exact hs1.symm
  · intro self other hthr
    unfold DeltaHedger.hedge_position
    rw [calculate_position_delta_threshold_congr self other hthr gf market_data p]

/-- Claim C6 witness: the amended theorem applied to the `c6` scenario — the
executed size 0.01 matches the hardcoded clamp, and the hedger with updated
settings behaves exactly like the default one. -/
theorem claim_C6_witness :
    ((1:ℚ)/100 = min (max (1/100)
        (if c6_info.delta = 0 ∨ c6_pos.time_to_expiry ≤ 1/1000 then
          max (1/100) (c6_pos.size * (1/10))
        else |c6_info.delta| * c6_pos.size * c6_pos.contract_size)) 100) ∧
    c6_hedger.hedge_position c6_gf (some c6_md) c6_exec c6_pos =
      default_hedger.hedge_position c6_gf (some c6_md) c6_exec c6_pos :=
  ⟨(claim_C6_theorem c6_gf (some c6_md) c6_exec c6_pos).1 c6_hedger c6_info (1/100)
      (some "ref-6") c6_info c6_pos
      (by norm_num [DeltaHedger.calculate_position_delta, c6_hedger, c6_settings,
        default_hedger, DeltaHedger.validate_settings, c6_gf, c6_md, c6_pos, c6_info,
        abs_of_pos])
      c6_eval,
   (claim_C6_theorem c6_gf (some c6_md) c6_exec c6_pos).2 c6_hedger default_hedger
      (by norm_num [c6_hedger, c6_settings, default_hedger,
        DeltaHedger.validate_settings])⟩

/-! ## Claim C7 -/

/-- An attribute map supplying an epic, a premium and an (integer) time to
expiry — but no strike at all. -/
def c7_data : PosData :=
  { epic := some "OPT.X", premium := some 7, time_to_expiry := some 3 }

/-- The Position the constructor produces from `c7_data`: every omitted field is
silently defaulted, and `strike = 0`. -/
def c7_pos : Position :=
  { epic := "OPT.X"
    strike := 0
    option_type := OptionType.CALL
    direction := "SELL"
    contract_size := 1
    size := 0
    level := 0
    premium := 7
    underlying_epic := "OPT.X"
    expiry := none
    time_to_expiry := 3
    hedge_size := 0
    hedge_deal_id := none
    last_hedge_price := none
    last_hedge_time := none
    hedge_history := []
    is_active := true
    deal_id := none
    pnl_threshold_crossed := false }

/-- Concrete evaluation of the constructor on `c7_data`. -/
lemma c7_eval : Position.init c7_data = Except.ok c7_pos := by decide

/-- Claim C7 counterexample: a map with an epic but no strike constructs
successfully with `strike = 0` — the invariant `strike > 0` does not hold for
every successfully constructed Position. -/
theorem claim_C7_counterexample :
    Position.init c7_data = Except.ok c7_pos ∧ ¬ (0 < c7_pos.strike) := by
  exact ⟨c7_eval, by norm_num [c7_pos]⟩

/-- Claim C7 (amended): construction fails exactly when neither `epic` nor
`underlying_epic` is a truthy (non-empty) string; every successfully constructed
Position has a non-empty epic — but the strike is *not* validated: it silently
defaults to 0, so `strike > 0` is not guaranteed. -/
theorem claim_C7_theorem (data : PosData) :
    ((∃ e, Position.init data = Except.error e) ↔
      truthy data.epic = false ∧ truthy data.underlying_epic = false) ∧
    (∀ p, Position.init data = Except.ok p → p.epic ≠ "") := by
  by_cases hA : truthy data.epic = true
  · cases hAe : data.epic with
    | none => rw [hAe] at hA; exact absurd hA (by simp [truthy])
    | some a =>
      rw [hAe] at hA
      have ha : ¬ a = "" := by simpa [truthy] using hA
      unfold Position.init
      rw [hAe]
      simp only [hA, if_true, if_neg ha]
      constructor
      · simp [hA, hAe]
      · intro p hp
        injection hp with hp'
        rw [← hp']
        exact ha
  · have hA' : truthy data.epic = false := by
      revert hA; cases truthy data.epic <;> simp
    unfold Position.init
    simp only [hA', Bool.false_eq_true, if_false]
    cases hB : data.underlying_epic with
    | none =>
      constructor
      · simp [hA', hB, truthy]
      · intro p hp; exact absurd hp (by simp)
    | some b =>
      dsimp only
      by_cases hb : b = ""
      · rw [if_pos hb]
        constructor
        · simp [hA', hb, truthy]
        · intro p hp; exact absurd hp (by simp)
      · rw [if_neg hb]
        constructor
        · simp [hA', hb, truthy]
        · intro p hp
          injection hp with hp'
          rw [← hp']
          exact hb

/-- Claim C7 witness: the amended theorem applied to `c7_data` (success with
non-empty epic) and to the empty attribute map (failure). -/
theorem claim_C7_witness :
    c7_pos.epic ≠ "" ∧ (∃ e, Position.init {} = Except.error e) :=
  ⟨(claim_C7_theorem c7_data).2 c7_pos c7_eval,
   ((claim_C7_theorem {}).1).mpr (by simp [truthy])⟩

/-! ## Claim C8 -/

/-- Claim C8: `validate_settings` accepts exactly when each of the four values
(read with default 0 for an absent key) is numeric with `0 < min_hedge_size`,
`min_hedge_size < max_hedge_size`, `0 < hedge_interval`, `0 < delta_threshold`;
on acceptance all four settings are replaced together by the supplied values; on
any rejection (including a non-numeric value) the hedger keeps all four previous
settings unchanged and an error is returned. -/
theorem claim_C8_theorem (self : DeltaHedger) (s : SettingsInput) :
    (∀ mn mx hi dt : ℚ,
      s.min_hedge_size.getD (NumValue.num 0) = NumValue.num mn →
      s.max_hedge_size.getD (NumValue.num 0) = NumValue.num mx →
      s.hedge_interval.getD (NumValue.num 0) = NumValue.num hi →
      s.delta_threshold.getD (NumValue.num 0) = NumValue.num dt →
      ((0 < mn ∧ mn < mx ∧ 0 < hi ∧ 0 < dt →
        self.validate_settings s =
          ({ min_hedge_size := mn, max_hedge_size := mx,
             hedge_interval := hi, delta_threshold := dt }, Except.ok ())) ∧
       (¬(0 < mn ∧ mn < mx ∧ 0 < hi ∧ 0 < dt) →
        (self.validate_settings s).1 = self ∧
        ∃ e, (self.validate_settings s).2 = Except.error e))) ∧
    ((s.min_hedge_size.getD (NumValue.num 0) = NumValue.nonNumeric ∨
      s.max_hedge_size.getD (NumValue.num 0) = NumValue.nonNumeric ∨
      s.hedge_interval.getD (NumValue.num 0) = NumValue.nonNumeric ∨
      s.delta_threshold.getD (NumValue.num 0) = NumValue.nonNumeric) →
      self.validate_settings s = (self, Except.error "Invalid numeric values in settings")) := by
  constructor
  · intro mn mx hi dt hmn hmx hhi hdt
    unfold DeltaHedger.validate_settings
    rw [hmn, hmx, hhi, hdt]
    dsimp only
    constructor
    · rintro ⟨a, b, c, d⟩
      rw [if_neg (not_le.mpr a), if_neg (not_le.mpr b), if_neg (not_le.mpr c),
        if_neg (not_le.mpr d)]
    · intro hnot
      by_cases h1 : mn ≤ 0
      · rw [if_pos h1]; exact ⟨rfl, _, rfl⟩
      · by_cases h2 : mx ≤ mn
        · rw [if_neg h1, if_pos h2]; exact ⟨rfl, _, rfl⟩
        · by_cases h3 : hi ≤ 0
          · rw [if_neg h1, if_neg h2, if_pos h3]; exact ⟨rfl, _, rfl⟩
          · by_cases h4 : dt ≤ 0
            · rw [if_neg h1, if_neg h2, if_neg h3, if_pos h4]; exact ⟨rfl, _, rfl⟩
            · exact absurd ⟨not_le.mp h1, not_le.mp h2, not_le.mp h3, not_le.mp h4⟩ hnot
  · intro hcase
    unfold DeltaHedger.validate_settings
    cases hmn : s.min_hedge_size.getD (NumValue.num 0) with
    | nonNumeric => rfl
    | num mn =>
      cases hmx : s.max_hedge_size.getD (NumValue.num 0) with
      | nonNumeric => rfl
      | num mx =>
        cases hhi : s.hedge_interval.getD (NumValue.num 0) with
        | nonNumeric => rfl
        | num hi =>
          cases hdt : s.delta_threshold.getD (NumValue.num 0) with
          | nonNumeric => rfl
          | num dt =>
            rcases hcase with h | h | h | h <;>
              simp_all

/-- Claim C8 witness: the theorem applied to the accepted settings
`(0.5, 50, 60, 0.05)` — all four settings replaced together. -/
theorem claim_C8_witness :
    default_hedger.validate_settings c6_settings =
      ({ min_hedge_size := 1/2, max_hedge_size := 50, hedge_interval := 60,
         delta_threshold := 1/20 }, Except.ok ()) :=
  ((claim_C8_theorem default_hedger c6_settings).1 (1/2) 50 60 (1/20)
    rfl rfl rfl rfl).1 (by norm_num)
